import Mathlib

/-!
Verification development for the TumorX repository (brain-tumor MRI analysis).

Shallow embedding of the inference-and-report pipeline:
- `src/utils/report_generator.py` : `TUMOR_INFO`, `generate_pdf_report`
- `src/utils/classifier.py`       : `_get_input_hw_c`, `_preprocess_image`, `classify_image`
- `src/utils/segmentation.py`     : `segment_image_heatmap`
- `src/app.py`                    : the orchestration between classification,
                                    segmentation and report generation.

Modelling conventions:
- A PDF "story" is modelled as a `List Flowable`; reportlab styling
  parameters (font sizes, colors, paddings, spacer heights) are cosmetic and
  dropped, but every flowable appended to the story, its order, and the text
  it carries are kept.
- File-system reads (`os.path.exists`, `cv2.imread`, Keras `load_img`) and
  library routines whose code is not in this repository (cv2 interpolation,
  the jet colormap, EfficientNet preprocessing) enter as explicit function
  parameters in environment structures.
- Pixel values and probabilities are exact rationals; uint8 quantisation of
  library casts is modelled with floor/mod, and `cv2.addWeighted` saturation
  with clipping to [0, 255] over exact rationals.
- Python float formatting `:.2f` is modelled as decimal rounding of the
  exact rational (half-up), rendered with an explicit two-digit fraction.
- Python truthiness of the `confidence` argument (`None`/`0.0` falsy) is
  modelled with `Option ℚ`.
-/

namespace TumorX

/-- One entry of the static medical reference mapping.  Python dict entries
carry different key sets per label, so optional keys are `Option`-valued;
`description` is present in every entry of the source. -/
structure TumorEntry where
  description : String
  types : Option (List String)
  symptoms : Option (List String)
  treatment_options : Option (List String)
  prognosis : Option String
  prevalence : Option String
  normal_findings : Option (List String)
  recommendations : Option (List String)
  note : Option String
deriving DecidableEq

/-- `TUMOR_INFO` from `src/utils/report_generator.py`, as an association
list preserving the Python dict's insertion order. -/
def TUMOR_INFO : List (String × TumorEntry) :=
  [ ("Glioma Tumor",
      ⟨"Gliomas are tumors that arise from glial cells in the brain and spinal cord. They are the most common type of primary brain tumor in adults.",
       some ["Astrocytoma (Grade I-IV)",
             "Oligodendroglioma",
             "Ependymoma",
             "Mixed glioma"],
       some ["Headaches that gradually worsen",
             "Seizures (especially in adults with no prior history)",
             "Personality or memory changes",
             "Nausea and vomiting",
             "Weakness or paralysis in parts of the body",
             "Vision or speech problems"],
       some ["Surgical resection",
             "Radiation therapy",
             "Chemotherapy",
             "Targeted therapy",
             "Clinical trials"],
       some "Varies significantly based on grade, location, and molecular characteristics. Grade I gliomas have better prognosis than Grade IV (Glioblastoma).",
       some "Approximately 3-5 cases per 100,000 people annually",
       none, none, none⟩),
    ("Meningioma Tumor",
      ⟨"Meningiomas are tumors that arise from the meninges, the protective layers surrounding the brain and spinal cord. Most are benign (non-cancerous).",
       some ["Grade I (Benign) - 90% of cases",
             "Grade II (Atypical) - 7-8% of cases",
             "Grade III (Malignant) - 1-3% of cases"],
       some ["Headaches",
             "Vision problems",
             "Hearing loss or ringing in ears",
             "Memory loss",
             "Weakness in arms or legs",
             "Seizures",
             "Changes in smell"],
       some ["Observation (for small, asymptomatic tumors)",
             "Surgical removal",
             "Stereotactic radiosurgery",
             "Conventional radiation therapy",
             "Hormone therapy (in some cases)"],
       some "Generally excellent for Grade I meningiomas. 5-year survival rate is over 95% for benign meningiomas.",
       some "Most common primary brain tumor, representing about 36% of all brain tumors",
       none, none, none⟩),
    ("Pituitary Tumor",
      ⟨"Pituitary tumors are growths in the pituitary gland, a small organ that controls several other hormone-producing glands. Most are benign adenomas.",
       some ["Functional adenomas (hormone-producing)",
             "Non-functional adenomas",
             "Microadenomas (<10mm)",
             "Macroadenomas (>10mm)",
             "Craniopharyngioma",
             "Rathke\u0027s cleft cyst"],
       some ["Vision problems (peripheral vision loss)",
             "Hormonal imbalances",
             "Headaches",
             "Unexplained fatigue",
             "Mood changes or depression",
             "Changes in menstrual periods",
             "Erectile dysfunction",
             "Growth abnormalities"],
       some ["Transsphenoidal surgery",
             "Medication (dopamine agonists, somatostatin analogs)",
             "Radiation therapy",
             "Stereotactic radiosurgery",
             "Hormone replacement therapy"],
       some "Generally excellent with appropriate treatment. Most pituitary adenomas are curable.",
       some "About 15% of all brain tumors. Affects approximately 1 in 1,000 people",
       none, none, none⟩),
    ("No Tumor",
      ⟨"No tumor detected in the MRI scan. The brain tissue appears normal based on AI analysis.",
       none, none, none, none, none,
       some ["Healthy brain tissue structure",
             "Normal ventricle size and shape",
             "No abnormal masses or lesions",
             "Appropriate gray and white matter contrast",
             "Normal cerebrospinal fluid spaces"],
       some ["Continue routine medical check-ups",
             "Maintain healthy lifestyle",
             "Monitor for any new symptoms",
             "Follow up with healthcare provider as scheduled"],
       some "While no tumor is detected, this AI analysis should be confirmed by a qualified radiologist and medical professional."⟩) ]

/-- The label list of `src/app.py` line 798, consumed by both the
classifier call and the report generator. -/
def class_names : List String :=
  ["Glioma Tumor", "Meningioma Tumor", "No Tumor", "Pituitary Tumor"]

/-- Paragraph styles of `create_custom_styles` plus the ad-hoc footer style
of `generate_pdf_report`; the numeric style parameters are cosmetic and
dropped, but the style identity is kept because it distinguishes flowables. -/
inductive Style
  | title
  | normal
  | heading
  | body
  | footer
deriving DecidableEq

/-- A reportlab flowable as appended to the `story` list by
`generate_pdf_report`.  A `table` holds its rows of string cells; an
`imageTable` holds the image row's cells, each a caption paragraph paired
with the image path handed to `RLImage`. -/
inductive Flowable
  | para (style : Style) (text : String)
  | hr
  | spacer
  | table (rows : List (List String))
  | imageTable (cells : List (String × String))
  | pageBreak
deriving DecidableEq

/-- Environment of a `generate_pdf_report` call: the file-existence
predicate (`os.path.exists`) and the three timestamp strings the source
obtains from `datetime.datetime.now().strftime`. -/
structure ReportEnv where
  fileExists : String → Bool
  now : String
  stamp : String
  today : String

/-- Python truthiness of an optional path argument combined with
`os.path.exists`: the guards `if original_path and os.path.exists(...)`
and `if overlay_path and os.path.exists(...)`. -/
def pathOk (fe : String → Bool) : Option String → Bool
  | none => false
  | some s => (!s.isEmpty) && fe s

/-- `confidence_percentage = confidence * 1 if confidence else 0`
(line 267): Python truthiness makes `None` and `0.0` both take the
`else 0` branch. -/
def confidence_percentage : Option ℚ → ℚ
  | none => 0
  | some q => if q = 0 then 0 else q * 1

/-- Two decimal digits with a leading zero, for the fractional part. -/
def pad2 (n : ℕ) : String :=
  if n < 10 then "0" ++ toString n else toString n

/-- Render `n` hundredths as a fixed-point numeral with two decimals. -/
def fmtCents (n : ℕ) : String :=
  toString (n / 100) ++ "." ++ pad2 (n % 100)

/-- Model of the Python format `f"{x:.2f}"`: decimal rounding of the exact
rational to hundredths (half-up), rendered with an explicit sign and a
two-digit fraction. -/
def fmtFixed2 (q : ℚ) : String :=
  if ⌊q * 100 + 1 / 2⌋ < 0 then "-" ++ fmtCents (⌊q * 100 + 1 / 2⌋).natAbs
  else fmtCents (⌊q * 100 + 1 / 2⌋).natAbs

/-- The risk-assessment cell of the results table (line 273). -/
def riskLine (pred_class : String) : String :=
  if pred_class ≠ "No Tumor" then "HIGH PRIORITY - Requires medical attention"
  else "NORMAL - No tumor detected"

/-- Header block of the report: title, subtitle, rule, spacer. -/
def headerSection : List Flowable :=
  [ Flowable.para Style.title "TUMORX",
    Flowable.para Style.normal "AI-Powered Brain Tumor Detection & Analysis",
    Flowable.hr,
    Flowable.spacer ]

/-- Rows of the `report_info` table (lines 213-218). -/
def reportInfoRows (env : ReportEnv) : List (List String) :=
  [ ["Report Generated:", env.now],
    ["Analysis Method:", "Deep Learning Neural Networks"],
    ["Model Version:", "TumorX v2.1.0"],
    ["Report ID:", "TX-" ++ env.stamp] ]

/-- The report-information table and trailing spacer. -/
def infoSection (env : ReportEnv) : List Flowable :=
  [ Flowable.table (reportInfoRows env), Flowable.spacer ]

/-- The `image_row` list (lines 236-248): the original slot, then the
overlay slot, each guarded by path truthiness and `os.path.exists`. -/
def image_row (fe : String → Bool) (original_path overlay_path : Option String) :
    List (String × String) :=
  (if pathOk fe original_path then
    [("<b>Original MRI Scan</b>", original_path.getD "")] else [])
  ++ (if pathOk fe overlay_path then
    [("<b>AI Segmentation Analysis</b>", overlay_path.getD "")] else [])

/-- Lines 250-261: the image table is appended only `if image_row:`. -/
def imagesTableSection (fe : String → Bool) (original_path overlay_path : Option String) :
    List Flowable :=
  if (image_row fe original_path overlay_path).isEmpty then []
  else [ Flowable.imageTable (image_row fe original_path overlay_path), Flowable.spacer ]

/-- Rows of the `result_data` table (lines 270-274). -/
def resultRows (pred_class : String) (confidence : Option ℚ) : List (List String) :=
  [ ["Classification Result", pred_class],
    ["Confidence Level", fmtFixed2 (confidence_percentage confidence) ++ "%"],
    ["Risk Assessment", riskLine pred_class] ]

/-- The AI-diagnostic-results heading, table and spacer. -/
def resultsSection (pred_class : String) (confidence : Option ℚ) : List Flowable :=
  [ Flowable.para Style.heading "AI DIAGNOSTIC RESULTS",
    Flowable.table (resultRows pred_class confidence),
    Flowable.spacer ]

/-- A bold header paragraph followed by one bullet paragraph per item and a
spacer (the repeated pattern of the detailed-information section). -/
def bulletBlock (header : String) (items : List String) : List Flowable :=
  Flowable.para Style.body header
    :: items.map (fun i => Flowable.para Style.body ("• " ++ i))
    ++ [Flowable.spacer]

/-- A bullet block guarded by the Python key-presence check. -/
def optBulletBlock (header : String) : Option (List String) → List Flowable
  | some items => bulletBlock header items
  | none => []

/-- A header-plus-text block guarded by the Python key-presence check. -/
def optTextBlock (header : String) : Option String → List Flowable
  | some t => [ Flowable.para Style.body header,
                Flowable.para Style.body t,
                Flowable.spacer ]
  | none => []

/-- The positive-class half of the detailed section (lines 300-332). -/
def positiveDetail (td : TumorEntry) : List Flowable :=
  optBulletBlock "<b>Common Types/Subtypes:</b>" td.types
  ++ optBulletBlock "<b>Common Symptoms:</b>" td.symptoms
  ++ optBulletBlock "<b>Treatment Options:</b>" td.treatment_options
  ++ optTextBlock "<b>Prognosis:</b>" td.prognosis
  ++ optTextBlock "<b>Prevalence:</b>" td.prevalence

/-- The negative-class half of the detailed section (lines 334-345). -/
def negativeDetail (td : TumorEntry) : List Flowable :=
  optBulletBlock "<b>Normal Findings Detected:</b>" td.normal_findings
  ++ optBulletBlock "<b>Recommendations:</b>" td.recommendations

/-- Lines 292-345: the detailed-information section, emitted only when
`pred_class in TUMOR_INFO`. -/
def detailSection (pred_class : String) : List Flowable :=
  match List.lookup pred_class TUMOR_INFO with
  | none => []
  | some td =>
    [ Flowable.para Style.heading "DETAILED MEDICAL INFORMATION",
      Flowable.para Style.body ("<b>About " ++ pred_class ++ ":</b>"),
      Flowable.para Style.body td.description,
      Flowable.spacer ]
    ++ (if pred_class ≠ "No Tumor" then positiveDetail td else negativeDetail td)

/-- One entry of the reference appendix loop (lines 353-359), skipped for
the negative class. -/
def refEntry (tumor_name : String) (info : TumorEntry) : List Flowable :=
  if tumor_name ≠ "No Tumor" then
    [ Flowable.para Style.body ("<b>" ++ tumor_name ++ "</b>"),
      Flowable.para Style.body info.description ]
    ++ (match info.prevalence with
        | some p => [Flowable.para Style.body ("<i>Prevalence: " ++ p ++ "</i>")]
        | none => [])
    ++ [Flowable.spacer]
  else []

/-- Lines 347-359: the full reference appendix. -/
def refSection : List Flowable :=
  [ Flowable.pageBreak,
    Flowable.para Style.heading "BRAIN TUMOR REFERENCE GUIDE",
    Flowable.para Style.body "Complete overview of brain tumor types analyzed by TumorX AI system:",
    Flowable.spacer ]
  ++ (TUMOR_INFO.map (fun p => refEntry p.1 p.2)).flatten

/-- The eight disclaimer paragraphs (lines 365-381). -/
def disclaimers : List String :=
  [ "<b>AI Technology Limitations:</b> This analysis is performed by artificial intelligence and machine learning algorithms. While highly accurate, AI systems can make errors and should never replace professional medical judgment.",
    "<b>Not a Medical Diagnosis:</b> This report provides AI-assisted analysis for informational purposes only. It does not constitute a medical diagnosis, treatment recommendation, or medical advice.",
    "<b>Professional Medical Consultation Required:</b> Any abnormal findings require immediate consultation with qualified medical professionals including radiologists, neurologists, or neurosurgeons.",
    "<b>Imaging Limitations:</b> MRI interpretation depends on image quality, patient positioning, contrast usage, and scanning parameters. Some conditions may not be visible on MRI.",
    "<b>Emergency Situations:</b> If experiencing severe headaches, seizures, vision changes, or neurological symptoms, seek immediate medical attention regardless of this AI analysis.",
    "<b>Second Opinion Recommended:</b> For any positive findings, obtain a second opinion from qualified medical professionals and consider additional diagnostic tests.",
    "<b>Data Privacy:</b> Medical imaging data processed by this system is handled according to healthcare privacy regulations. No personal health information is stored permanently.",
    "<b>Regulatory Status:</b> This AI system is for research and educational purposes. It is not FDA-approved for clinical diagnosis." ]

/-- Lines 361-385: the disclaimers section. -/
def disclaimersSection : List Flowable :=
  [ Flowable.pageBreak,
    Flowable.para Style.heading "MEDICAL DISCLAIMERS & IMPORTANT INFORMATION" ]
  ++ (disclaimers.map (fun d => [Flowable.para Style.body d, Flowable.spacer])).flatten

/-- The `footer_text` template (lines 392-398) with the generation date
spliced in. -/
def footer_text (today : String) : String :=
  "\n    <b>TumorX AI System</b><br/>\n    Advanced Brain Tumor Detection Platform<br/>\n    Powered by Deep Learning & Computer Vision<br/>\n    For research and educational use only<br/>\n    <i>Generated on "
  ++ today ++ "</i>\n    "

/-- Lines 387-406: the footer block. -/
def footerSection (today : String) : List Flowable :=
  [ Flowable.spacer, Flowable.hr, Flowable.spacer,
    Flowable.para Style.footer (footer_text today) ]

/-- `generate_pdf_report` of `src/utils/report_generator.py`: the `story`
list handed to `doc.build`, in the source's append order. -/
def generate_pdf_report (env : ReportEnv) (original_path overlay_path : Option String)
    (pred_class : String) (confidence : Option ℚ) : List Flowable :=
  headerSection
  ++ infoSection env
  ++ [Flowable.para Style.heading "MRI SCAN ANALYSIS"]
  ++ imagesTableSection env.fileExists original_path overlay_path
  ++ resultsSection pred_class confidence
  ++ detailSection pred_class
  ++ refSection
  ++ disclaimersSection
  ++ footerSection env.today

/-- All rows of all string tables of a story. -/
def tableRows : List Flowable → List (List String)
  | [] => []
  | Flowable.table rows :: rest => rows ++ tableRows rest
  | _ :: rest => tableRows rest

/-- All cells of all image tables of a story. -/
def imageCells : List Flowable → List (String × String)
  | [] => []
  | Flowable.imageTable cells :: rest => cells ++ imageCells rest
  | _ :: rest => imageCells rest

/-! Structural lemmas about `tableRows` and `imageCells`. -/

theorem tableRows_append (a b : List Flowable) :
    tableRows (a ++ b) = tableRows a ++ tableRows b := by
  induction a with
  | nil => rfl
  | cons x xs ih => cases x <;> simp [tableRows, ih]

theorem imageCells_append (a b : List Flowable) :
    imageCells (a ++ b) = imageCells a ++ imageCells b := by
  induction a with
  | nil => rfl
  | cons x xs ih => cases x <;> simp [imageCells, ih]

theorem tableRows_bullets (items : List String) :
    tableRows (items.map (fun i => Flowable.para Style.body ("• " ++ i))) = [] := by
  induction items with
  | nil => rfl
  | cons x xs ih => simp [tableRows, ih]

theorem tableRows_bulletBlock (header : String) (items : List String) :
    tableRows (bulletBlock header items) = [] := by
  simp [bulletBlock, tableRows, tableRows_append, tableRows_bullets]

theorem tableRows_optBulletBlock (header : String) (o : Option (List String)) :
    tableRows (optBulletBlock header o) = [] := by
  cases o with
  | none => rfl
  | some items => exact tableRows_bulletBlock header items

theorem tableRows_optTextBlock (header : String) (o : Option String) :
    tableRows (optTextBlock header o) = [] := by
  cases o <;> simp [optTextBlock, tableRows]

theorem tableRows_detailSection (pred_class : String) :
    tableRows (detailSection pred_class) = [] := by
  unfold detailSection
  cases List.lookup pred_class TUMOR_INFO with
  | none => rfl
  | some td =>
    by_cases h : pred_class ≠ "No Tumor" <;>
      simp [h, tableRows, tableRows_append, positiveDetail, negativeDetail,
        tableRows_optBulletBlock, tableRows_optTextBlock]

theorem tableRows_imagesTableSection (fe : String → Bool)
    (original_path overlay_path : Option String) :
    tableRows (imagesTableSection fe original_path overlay_path) = [] := by
  unfold imagesTableSection
  by_cases h : (image_row fe original_path overlay_path).isEmpty <;> simp [h, tableRows]

/-- The tables of a generated report are exactly the report-information
table followed by the results table. -/
theorem tableRows_report (env : ReportEnv) (original_path overlay_path : Option String)
    (pred_class : String) (confidence : Option ℚ) :
    tableRows (generate_pdf_report env original_path overlay_path pred_class confidence)
      = reportInfoRows env ++ resultRows pred_class confidence := by
  unfold generate_pdf_report
  simp [tableRows_append, tableRows_detailSection, tableRows_imagesTableSection,
    headerSection, infoSection, resultsSection, refSection, disclaimersSection,
    footerSection, tableRows]

/-! Formatting lemmas. -/

theorem pad2_spec : ∀ n < 100, (pad2 n).length = 2 ∧ (pad2 n).data.all Char.isDigit = true := by
  decide

/-- A numeral with exactly two decimal digits followed by a percent sign. -/
def twoDecimalsPercent (s : String) : Prop :=
  ∃ a b, s = a ++ "." ++ b ++ "%" ∧ b.length = 2 ∧ b.data.all Char.isDigit = true

theorem fmtCents_twoDecimals (n : ℕ) : twoDecimalsPercent (fmtCents n ++ "%") := by
  refine ⟨toString (n / 100), pad2 (n % 100), rfl, ?_, ?_⟩
  · exact (pad2_spec (n % 100) (Nat.mod_lt n (by norm_num))).1
  · exact (pad2_spec (n % 100) (Nat.mod_lt n (by norm_num))).2

theorem round2c_nonneg {q : ℚ} (h : 0 ≤ q) : 0 ≤ ⌊q * 100 + 1 / 2⌋ := by
  rw [show (0 : ℤ) = ⌊(1 / 2 : ℚ)⌋ by norm_num [Int.floor_eq_iff]]
  exact Int.floor_le_floor (by linarith)

theorem round2c_le {q : ℚ} (h : q ≤ 100) : ⌊q * 100 + 1 / 2⌋ ≤ 10000 := by
  calc ⌊q * 100 + 1 / 2⌋ ≤ ⌊(10000 : ℚ) + 1 / 2⌋ := Int.floor_le_floor (by linarith)
    _ = 10000 := by norm_num [Int.floor_eq_iff]

theorem fmtFixed2_of_nonneg {q : ℚ} (h : 0 ≤ q) :
    fmtFixed2 q = fmtCents (⌊q * 100 + 1 / 2⌋).natAbs := by
  unfold fmtFixed2
  rw [if_neg (not_lt.mpr (round2c_nonneg h))]

/-- `confidence * 1 if confidence else 0` is the identity on every number
actually passed: the nonzero branch multiplies by one and the zero branch
returns the same zero. -/
theorem confidence_percentage_some (q : ℚ) : confidence_percentage (some q) = q := by
  unfold confidence_percentage
  by_cases h : q = 0 <;> simp [h]

/-- Claim C1: a confidence in [0, 100] given to `generate_pdf_report` is
taken as a percentage unchanged (no further division), appears in the
results table as a two-decimal numeral followed by a percent sign, and the
rendered value stays in [0, 100]. -/
theorem confidence_rendered_in_range_two_decimals
    (env : ReportEnv) (original_path overlay_path : Option String) (pred_class : String)
    (q : ℚ) (h0 : 0 ≤ q) (h1 : q ≤ 100) :
    confidence_percentage (some q) = q
    ∧ ["Confidence Level", fmtFixed2 q ++ "%"]
        ∈ tableRows (generate_pdf_report env original_path overlay_path pred_class (some q))
    ∧ 0 ≤ (⌊q * 100 + 1 / 2⌋ : ℚ) / 100
    ∧ (⌊q * 100 + 1 / 2⌋ : ℚ) / 100 ≤ 100
    ∧ twoDecimalsPercent (fmtFixed2 q ++ "%") := by
  refine ⟨confidence_percentage_some q, ?_, ?_, ?_, ?_⟩
  · rw [tableRows_report]
    simp [resultRows, reportInfoRows, confidence_percentage_some]
  · exact div_nonneg (by exact_mod_cast round2c_nonneg h0) (by norm_num)
  · have hm : (⌊q * 100 + 1 / 2⌋ : ℚ) ≤ 10000 := by exact_mod_cast round2c_le h1
    linarith
  · rw [fmtFixed2_of_nonneg h0]
    exact fmtCents_twoDecimals _

/-- Witness for C1 at confidence 92.5. -/
theorem confidence_rendered_witness :
    confidence_percentage (some (185 / 2 : ℚ)) = 185 / 2
    ∧ ["Confidence Level", fmtFixed2 (185 / 2 : ℚ) ++ "%"]
        ∈ tableRows (generate_pdf_report ⟨fun _ => false, "", "", ""⟩ none none
            "Glioma Tumor" (some (185 / 2 : ℚ)))
    ∧ 0 ≤ (⌊(185 / 2 : ℚ) * 100 + 1 / 2⌋ : ℚ) / 100
    ∧ (⌊(185 / 2 : ℚ) * 100 + 1 / 2⌋ : ℚ) / 100 ≤ 100
    ∧ twoDecimalsPercent (fmtFixed2 (185 / 2 : ℚ) ++ "%") :=
  confidence_rendered_in_range_two_decimals ⟨fun _ => false, "", "", ""⟩ none none
    "Glioma Tumor" (185 / 2) (by norm_num) (by norm_num)

/-- Claim C2: the results table carries the HIGH-PRIORITY risk line exactly
when the label differs from "No Tumor", and the NORMAL line exactly when it
equals "No Tumor". -/
theorem risk_assessment_line_iff (env : ReportEnv)
    (original_path overlay_path : Option String) (pred_class : String)
    (confidence : Option ℚ) :
    (["Risk Assessment", "HIGH PRIORITY - Requires medical attention"]
        ∈ tableRows (generate_pdf_report env original_path overlay_path pred_class confidence)
      ↔ pred_class ≠ "No Tumor")
    ∧ (["Risk Assessment", "NORMAL - No tumor detected"]
        ∈ tableRows (generate_pdf_report env original_path overlay_path pred_class confidence)
      ↔ pred_class = "No Tumor") := by
  rw [tableRows_report]
  by_cases h : pred_class = "No Tumor" <;>
    simp [reportInfoRows, resultRows, riskLine, h]

/-- Whether an optional list is present and non-empty. -/
def nonemptyOpt : Option (List String) → Bool
  | some (_ :: _) => true
  | _ => false

/-- Structural completeness of one reference entry, split by class as the
claim requires: non-empty types/symptoms/treatment lists for positive
classes, non-empty normal-findings/recommendations lists for the negative
class, description present (non-empty) for all. -/
def entryComplete (label : String) (e : TumorEntry) : Bool :=
  (decide (e.description ≠ ""))
  && (if label == "No Tumor"
      then nonemptyOpt e.normal_findings && nonemptyOpt e.recommendations
      else nonemptyOpt e.types && nonemptyOpt e.symptoms && nonemptyOpt e.treatment_options)

set_option maxRecDepth 8192 in
/-- Claim C4: the label set is exactly the four categories, and every label
indexes a structurally complete `TUMOR_INFO` entry. -/
theorem tumor_info_lockstep_complete :
    class_names = ["Glioma Tumor", "Meningioma Tumor", "No Tumor", "Pituitary Tumor"]
    ∧ (class_names.all fun l =>
        ((List.lookup l TUMOR_INFO).map (entryComplete l)).getD false) = true :=
  ⟨rfl, by decide⟩

/-- Claim C10: a falsy confidence (`None` or `0.0`) renders as "0.00%", and
any non-zero confidence reaches the formatter unchanged (the `* 1` is an
identity). -/
theorem confidence_falsy_identity (env : ReportEnv)
    (original_path overlay_path : Option String) (pred_class : String)
    (q : ℚ) (hq : q ≠ 0) :
    confidence_percentage none = 0
    ∧ confidence_percentage (some 0) = 0
    ∧ ["Confidence Level", "0.00%"]
        ∈ tableRows (generate_pdf_report env original_path overlay_path pred_class none)
    ∧ ["Confidence Level", "0.00%"]
        ∈ tableRows (generate_pdf_report env original_path overlay_path pred_class (some 0))
    ∧ confidence_percentage (some q) = q := by
  have hfl : ⌊(0 : ℚ) * 100 + 1 / 2⌋ = 0 := by norm_num [Int.floor_eq_iff]
  have hfmt : fmtFixed2 (0 : ℚ) ++ "%" = "0.00%" := by
    unfold fmtFixed2
    rw [hfl]
    decide
  refine ⟨rfl, by simp [confidence_percentage], ?_, ?_, confidence_percentage_some q⟩
  · rw [tableRows_report]
    simp [resultRows, reportInfoRows, confidence_percentage, ← hfmt]
  · rw [tableRows_report]
    have h0 : confidence_percentage (some 0) = 0 := by simp [confidence_percentage]
    simp [resultRows, reportInfoRows, h0, ← hfmt]

/-- Witness for C10 at confidence 92.5. -/
theorem confidence_falsy_identity_witness :
    confidence_percentage none = 0
    ∧ confidence_percentage (some 0) = 0
    ∧ ["Confidence Level", "0.00%"]
        ∈ tableRows (generate_pdf_report ⟨fun _ => false, "", "", ""⟩ none none
            "No Tumor" none)
    ∧ ["Confidence Level", "0.00%"]
        ∈ tableRows (generate_pdf_report ⟨fun _ => false, "", "", ""⟩ none none
            "No Tumor" (some 0))
    ∧ confidence_percentage (some (185 / 2 : ℚ)) = 185 / 2 :=
  confidence_falsy_identity ⟨fun _ => false, "", "", ""⟩ none none "No Tumor"
    (185 / 2) (by norm_num)

/-! Paragraph membership helpers. -/

theorem para_not_mem_imagesTableSection (st : Style) (s : String) (fe : String → Bool)
    (original_path overlay_path : Option String) :
    Flowable.para st s ∉ imagesTableSection fe original_path overlay_path := by
  unfold imagesTableSection
  by_cases h : (image_row fe original_path overlay_path).isEmpty <;> simp [h]

/-- Claim C5: with label "No Tumor" the detailed-information section never
contains the positive-class subtype/symptom/treatment/prognosis/prevalence
block headers, and contains the normal-findings and recommendations blocks,
for every confidence and overlay path. -/
theorem no_tumor_omits_positive_blocks (env : ReportEnv)
    (original_path overlay_path : Option String) (confidence : Option ℚ) :
    (Flowable.para Style.body "<b>Common Types/Subtypes:</b>"
        ∉ generate_pdf_report env original_path overlay_path "No Tumor" confidence)
    ∧ (Flowable.para Style.body "<b>Common Symptoms:</b>"
        ∉ generate_pdf_report env original_path overlay_path "No Tumor" confidence)
    ∧ (Flowable.para Style.body "<b>Treatment Options:</b>"
        ∉ generate_pdf_report env original_path overlay_path "No Tumor" confidence)
    ∧ (Flowable.para Style.body "<b>Prognosis:</b>"
        ∉ generate_pdf_report env original_path overlay_path "No Tumor" confidence)
    ∧ (Flowable.para Style.body "<b>Prevalence:</b>"
        ∉ generate_pdf_report env original_path overlay_path "No Tumor" confidence)
    ∧ (Flowable.para Style.body "<b>Normal Findings Detected:</b>"
        ∈ generate_pdf_report env original_path overlay_path "No Tumor" confidence)
    ∧ (Flowable.para Style.body "<b>Recommendations:</b>"
        ∈ generate_pdf_report env original_path overlay_path "No Tumor" confidence) := by
  have H : (Flowable.para Style.body "<b>Common Types/Subtypes:</b>" ∉ detailSection "No Tumor"
      ∧ Flowable.para Style.body "<b>Common Symptoms:</b>" ∉ detailSection "No Tumor"
      ∧ Flowable.para Style.body "<b>Treatment Options:</b>" ∉ detailSection "No Tumor"
      ∧ Flowable.para Style.body "<b>Prognosis:</b>" ∉ detailSection "No Tumor"
      ∧ Flowable.para Style.body "<b>Prevalence:</b>" ∉ detailSection "No Tumor")
      ∧ (Flowable.para Style.body "<b>Common Types/Subtypes:</b>" ∉ refSection
      ∧ Flowable.para Style.body "<b>Common Symptoms:</b>" ∉ refSection
      ∧ Flowable.para Style.body "<b>Treatment Options:</b>" ∉ refSection
      ∧ Flowable.para Style.body "<b>Prognosis:</b>" ∉ refSection
      ∧ Flowable.para Style.body "<b>Prevalence:</b>" ∉ refSection)
      ∧ (Flowable.para Style.body "<b>Common Types/Subtypes:</b>" ∉ disclaimersSection
      ∧ Flowable.para Style.body "<b>Common Symptoms:</b>" ∉ disclaimersSection
      ∧ Flowable.para Style.body "<b>Treatment Options:</b>" ∉ disclaimersSection
      ∧ Flowable.para Style.body "<b>Prognosis:</b>" ∉ disclaimersSection
      ∧ Flowable.para Style.body "<b>Prevalence:</b>" ∉ disclaimersSection) := by
    decide
  obtain ⟨⟨d1, d2, d3, d4, d5⟩, ⟨r1, r2, r3, r4, r5⟩, ⟨q1, q2, q3, q4, q5⟩⟩ := H
  have M : (Flowable.para Style.body "<b>Normal Findings Detected:</b>" ∈ detailSection "No Tumor")
      ∧ (Flowable.para Style.body "<b>Recommendations:</b>" ∈ detailSection "No Tumor") := by
    decide
  refine ⟨?_, ?_, ?_, ?_, ?_, ?_, ?_⟩ <;>
    simp [generate_pdf_report, List.mem_append, headerSection, infoSection,
      resultsSection, footerSection, para_not_mem_imagesTableSection,
      d1, d2, d3, d4, d5, r1, r2, r3, r4, r5, q1, q2, q3, q4, q5, M.1, M.2]

/-- Membership of each disclaimer paragraph in its section. -/
theorem disclaimer_para_mem (d : String) (hd : d ∈ disclaimers) :
    Flowable.para Style.body d ∈ disclaimersSection := by
  simp only [disclaimersSection, List.mem_cons, List.mem_append, List.mem_flatten,
    List.mem_map]
  exact Or.inr ⟨[Flowable.para Style.body d, Flowable.spacer], ⟨d, hd, rfl⟩, by simp⟩

/-- Claim C7: a label that is not a `TUMOR_INFO` key omits only the
detailed-information section; the results table, the reference appendix,
the disclaimers and the footer are still produced, and nothing raises. -/
theorem unknown_label_omits_only_detail (env : ReportEnv)
    (original_path overlay_path : Option String) (confidence : Option ℚ)
    (label : String) (h : List.lookup label TUMOR_INFO = none) :
    (Flowable.para Style.heading "DETAILED MEDICAL INFORMATION"
        ∉ generate_pdf_report env original_path overlay_path label confidence)
    ∧ ["Classification Result", label]
        ∈ tableRows (generate_pdf_report env original_path overlay_path label confidence)
    ∧ ["Risk Assessment", riskLine label]
        ∈ tableRows (generate_pdf_report env original_path overlay_path label confidence)
    ∧ Flowable.para Style.heading "BRAIN TUMOR REFERENCE GUIDE"
        ∈ generate_pdf_report env original_path overlay_path label confidence
    ∧ Flowable.para Style.body "<b>Glioma Tumor</b>"
        ∈ generate_pdf_report env original_path overlay_path label confidence
    ∧ Flowable.para Style.heading "MEDICAL DISCLAIMERS & IMPORTANT INFORMATION"
        ∈ generate_pdf_report env original_path overlay_path label confidence
    ∧ (∀ d ∈ disclaimers,
        Flowable.para Style.body d
          ∈ generate_pdf_report env original_path overlay_path label confidence)
    ∧ Flowable.para Style.footer (footer_text env.today)
        ∈ generate_pdf_report env original_path overlay_path label confidence := by
  have href : Flowable.para Style.heading "BRAIN TUMOR REFERENCE GUIDE" ∈ refSection := by
    decide
  have hglioma : Flowable.para Style.body "<b>Glioma Tumor</b>" ∈ refSection := by
    decide
  have hdh : Flowable.para Style.heading "MEDICAL DISCLAIMERS & IMPORTANT INFORMATION"
      ∈ disclaimersSection := by
    decide
  have hnd1 : Flowable.para Style.heading "DETAILED MEDICAL INFORMATION" ∉ refSection := by
    decide
  have hnd2 : Flowable.para Style.heading "DETAILED MEDICAL INFORMATION"
      ∉ disclaimersSection := by
    decide
  refine ⟨?_, ?_, ?_, ?_, ?_, ?_, ?_, ?_⟩
  · simp [generate_pdf_report, List.mem_append, headerSection, infoSection,
      resultsSection, footerSection, para_not_mem_imagesTableSection,
      detailSection, h, hnd1, hnd2]
  · rw [tableRows_report]
    simp [resultRows, reportInfoRows]
  · rw [tableRows_report]
    simp [resultRows, reportInfoRows]
  · simp [generate_pdf_report, List.mem_append, href]
  · simp [generate_pdf_report, List.mem_append, hglioma]
  · simp [generate_pdf_report, List.mem_append, hdh]
  · intro d hd
    simp [generate_pdf_report, List.mem_append, disclaimer_para_mem d hd]
  · simp [generate_pdf_report, List.mem_append, footerSection]

/-- Witness for C7 at the unrecognized label "Unknown". -/
theorem unknown_label_witness :
    (Flowable.para Style.heading "DETAILED MEDICAL INFORMATION"
        ∉ generate_pdf_report ⟨fun _ => false, "", "", ""⟩ none none "Unknown" (some 50))
    ∧ ["Classification Result", "Unknown"]
        ∈ tableRows (generate_pdf_report ⟨fun _ => false, "", "", ""⟩ none none "Unknown" (some 50))
    ∧ ["Risk Assessment", riskLine "Unknown"]
        ∈ tableRows (generate_pdf_report ⟨fun _ => false, "", "", ""⟩ none none "Unknown" (some 50))
    ∧ Flowable.para Style.heading "BRAIN TUMOR REFERENCE GUIDE"
        ∈ generate_pdf_report ⟨fun _ => false, "", "", ""⟩ none none "Unknown" (some 50)
    ∧ Flowable.para Style.body "<b>Glioma Tumor</b>"
        ∈ generate_pdf_report ⟨fun _ => false, "", "", ""⟩ none none "Unknown" (some 50)
    ∧ Flowable.para Style.heading "MEDICAL DISCLAIMERS & IMPORTANT INFORMATION"
        ∈ generate_pdf_report ⟨fun _ => false, "", "", ""⟩ none none "Unknown" (some 50)
    ∧ (∀ d ∈ disclaimers,
        Flowable.para Style.body d
          ∈ generate_pdf_report ⟨fun _ => false, "", "", ""⟩ none none "Unknown" (some 50))
    ∧ Flowable.para Style.footer (footer_text (ReportEnv.mk (fun _ => false) "" "" "").today)
        ∈ generate_pdf_report ⟨fun _ => false, "", "", ""⟩ none none "Unknown" (some 50) :=
  unknown_label_omits_only_detail ⟨fun _ => false, "", "", ""⟩ none none (some 50)
    "Unknown" (by decide)

/-! Image-cell lemmas for the images section. -/

theorem imageCells_bullets (items : List String) :
    imageCells (items.map (fun i => Flowable.para Style.body ("• " ++ i))) = [] := by
  induction items with
  | nil => rfl
  | cons x xs ih => simp [imageCells, ih]

theorem imageCells_bulletBlock (header : String) (items : List String) :
    imageCells (bulletBlock header items) = [] := by
  simp [bulletBlock, imageCells, imageCells_append, imageCells_bullets]

theorem imageCells_optBulletBlock (header : String) (o : Option (List String)) :
    imageCells (optBulletBlock header o) = [] := by
  cases o with
  | none => rfl
  | some items => exact imageCells_bulletBlock header items

theorem imageCells_optTextBlock (header : String) (o : Option String) :
    imageCells (optTextBlock header o) = [] := by
  cases o <;> simp [optTextBlock, imageCells]

theorem imageCells_detailSection (pred_class : String) :
    imageCells (detailSection pred_class) = [] := by
  unfold detailSection
  cases List.lookup pred_class TUMOR_INFO with
  | none => rfl
  | some td =>
    by_cases h : pred_class ≠ "No Tumor" <;>
      simp [h, imageCells, imageCells_append, positiveDetail, negativeDetail,
        imageCells_optBulletBlock, imageCells_optTextBlock]

theorem imageCells_imagesTableSection (fe : String → Bool)
    (original_path overlay_path : Option String) :
    imageCells (imagesTableSection fe original_path overlay_path)
      = image_row fe original_path overlay_path := by
  unfold imagesTableSection
  by_cases h : (image_row fe original_path overlay_path).isEmpty
  · rw [if_pos h, List.isEmpty_iff.mp h]
    rfl
  · rw [if_neg h]
    simp [imageCells]

/-- The image cells of a generated report are exactly the `image_row`. -/
theorem imageCells_report (env : ReportEnv) (original_path overlay_path : Option String)
    (pred_class : String) (confidence : Option ℚ) :
    imageCells (generate_pdf_report env original_path overlay_path pred_class confidence)
      = image_row env.fileExists original_path overlay_path := by
  unfold generate_pdf_report
  simp [imageCells_append, imageCells_detailSection, imageCells_imagesTableSection,
    headerSection, infoSection, resultsSection, refSection, disclaimersSection,
    footerSection, imageCells]

/-- Claim C6: when the overlay path is absent or not an existing file, the
images section carries only the original image, and the document with its
results table is still produced. -/
theorem overlay_absent_only_original (env : ReportEnv) (orig : String)
    (overlay_path : Option String) (pred_class : String) (confidence : Option ℚ)
    (hov : pathOk env.fileExists overlay_path = false)
    (horig : pathOk env.fileExists (some orig) = true) :
    imageCells (generate_pdf_report env (some orig) overlay_path pred_class confidence)
      = [("<b>Original MRI Scan</b>", orig)]
    ∧ ["Classification Result", pred_class]
        ∈ tableRows (generate_pdf_report env (some orig) overlay_path pred_class confidence)
    ∧ Flowable.para Style.heading "MRI SCAN ANALYSIS"
        ∈ generate_pdf_report env (some orig) overlay_path pred_class confidence := by
  refine ⟨?_, ?_, ?_⟩
  · rw [imageCells_report]
    simp [image_row, hov, horig]
  · rw [tableRows_report]
    simp [resultRows, reportInfoRows]
  · simp [generate_pdf_report, List.mem_append]

/-- Witness for C6 with an existing original and `overlay_path = None`. -/
theorem overlay_absent_witness :
    imageCells (generate_pdf_report ⟨fun s => s == "scan.png", "", "", ""⟩
        (some "scan.png") none "No Tumor" (some 88))
      = [("<b>Original MRI Scan</b>", "scan.png")]
    ∧ ["Classification Result", "No Tumor"]
        ∈ tableRows (generate_pdf_report ⟨fun s => s == "scan.png", "", "", ""⟩
            (some "scan.png") none "No Tumor" (some 88))
    ∧ Flowable.para Style.heading "MRI SCAN ANALYSIS"
        ∈ generate_pdf_report ⟨fun s => s == "scan.png", "", "", ""⟩
            (some "scan.png") none "No Tumor" (some 88) :=
  overlay_absent_only_original ⟨fun s => s == "scan.png", "", "", ""⟩ "scan.png" none
    "No Tumor" (some 88) rfl (by decide)

/-! Classifier embedding (`src/utils/classifier.py`). -/

/-- A PIL image: height, width and an RGB pixel function.  Array-format
shuffles (`img_to_array`, `expand_dims`, `astype(float32)`) are identities
on the pixel content in this exact-rational model. -/
structure PImg where
  h : ℕ
  w : ℕ
  px : ℕ → ℕ → ℚ × ℚ × ℚ

/-- Classifier-side environment: Keras `image.load_img` (which already
resizes to the requested `target_size`, returning nothing when the path is
unreadable) and the EfficientNet `preprocess_input` library routine. -/
structure ClsEnv where
  load_img : String → ℕ × ℕ → Option PImg
  effnet_preprocess : PImg → PImg

/-- `model.input_shape` is either one shape tuple or a list of shape
tuples, of which `_get_input_hw_c` takes the first.  The batch dimension is
carried along but never read. -/
inductive KShape
  | single (dims : List ℕ)
  | nested (shapes : List (List ℕ))

/-- A loaded Keras classifier handle: its declared input shape and its
forward pass yielding a probability vector. -/
structure KerasClassifier where
  input_shape : KShape
  predict : PImg → List ℚ

/-- `_get_input_hw_c`: unwrap a nested shape list, then unpack
`_, H, W, C`; the unpack fails (raises) unless there are exactly four
dimensions. -/
def get_input_hw_c : KShape → Option (ℕ × ℕ × ℕ)
  | KShape.single [_, hh, ww, cc] => some (hh, ww, cc)
  | KShape.nested ([_, hh, ww, cc] :: _) => some (hh, ww, cc)
  | _ => none

/-- `_preprocess_image`: mode dispatch in the source's order; unknown modes
raise a ValueError. -/
def preprocess_image (env : ClsEnv) (img_pil : PImg) (mode : String) : Option PImg :=
  if mode = "efficientnet" then some (env.effnet_preprocess img_pil)
  else if mode = "rescale01" then
    some ⟨img_pil.h, img_pil.w, fun i j =>
      ((img_pil.px i j).1 / 255, (img_pil.px i j).2.1 / 255, (img_pil.px i j).2.2 / 255)⟩
  else if mode = "none" then some img_pil
  else none

/-- `np.argmax` over a probability vector: index of the maximum, earliest
on ties. -/
def np_argmax : List ℚ → ℕ
  | [] => 0
  | [_] => 0
  | x :: y :: rest =>
      if x < (y :: rest).getD (np_argmax (y :: rest)) 0 then np_argmax (y :: rest) + 1
      else 0

theorem np_argmax_lt (l : List ℚ) (h : l ≠ []) : np_argmax l < l.length := by
  induction l with
  | nil => exact absurd rfl h
  | cons x xs ih =>
    cases xs with
    | nil => simp [np_argmax]
    | cons y rest =>
      have hy := ih (by simp)
      simp only [np_argmax]
      split
      · simp only [List.length_cons] at hy ⊢
        omega
      · simp only [List.length_cons]
        omega

theorem np_argmax_max (l : List ℚ) : ∀ j < l.length, l.getD j 0 ≤ l.getD (np_argmax l) 0 := by
  induction l with
  | nil => intro j hj; simp at hj
  | cons x xs ih =>
    cases xs with
    | nil =>
      intro j hj
      have : j = 0 := by simpa using Nat.lt_one_iff.mp (by simpa using hj)
      simp [this, np_argmax]
    | cons y rest =>
      intro j hj
      by_cases hx : x < (y :: rest).getD (np_argmax (y :: rest)) 0
      · rw [show np_argmax (x :: y :: rest) = np_argmax (y :: rest) + 1 from by
          simp only [np_argmax]; rw [if_pos hx]]
        cases j with
        | zero => simpa using le_of_lt hx
        | succ k =>
          have hk : k < (y :: rest).length := by simpa using hj
          simpa using ih k hk
      · rw [show np_argmax (x :: y :: rest) = 0 from by
          simp only [np_argmax]; rw [if_neg hx]]
        cases j with
        | zero => simp
        | succ k =>
          have hk : k < (y :: rest).length := by simpa using hj
          have h1 := ih k hk
          have h2 := not_lt.mp hx
          simpa using le_trans h1 h2

/-- The tail of `classify_image` after the forward pass:
`pred_idx = int(np.argmax(preds))`, `confidence = preds[pred_idx] * 100`,
`return class_names[pred_idx], confidence` — with `np.argmax` on an empty
vector and an out-of-range label index as the failure cases. -/
def classify_core (preds : List ℚ) (cnames : List String) : Option (String × ℚ) :=
  match preds with
  | [] => none
  | _ :: _ =>
    match cnames.get? (np_argmax preds) with
    | none => none
    | some nm => some (nm, preds.getD (np_argmax preds) 0 * 100)

/-- `classify_image`: read H/W from the model's declared input shape, load
and resize the image to that size, preprocess, one forward pass, arg-max,
label lookup, probability times 100. -/
def classify_image (env : ClsEnv) (img_path : String) (model : KerasClassifier)
    (cnames : List String) (preprocess : String) : Option (String × ℚ) :=
  match get_input_hw_c model.input_shape with
  | none => none
  | some (hh, ww, _) =>
    match env.load_img img_path (hh, ww) with
    | none => none
    | some pil_img =>
      match preprocess_image env pil_img preprocess with
      | none => none
      | some x => classify_core (model.predict x) cnames

/-- Claim C8: with a readable image and non-empty prediction vector,
`classify_image` resizes to the model's declared height/width, and returns
the label at the arg-max index together with that index's probability
multiplied by 100; the arg-max index is in range and carries the maximum
probability. -/
theorem classify_image_spec (env : ClsEnv) (model : KerasClassifier)
    (cnames : List String) (img_path : String) (hh ww cc : ℕ) (pil : PImg)
    (preds : List ℚ) (nm : String)
    (hshape : get_input_hw_c model.input_shape = some (hh, ww, cc))
    (hload : env.load_img img_path (hh, ww) = some pil)
    (hpreds : model.predict pil = preds)
    (hne : preds ≠ [])
    (hnm : cnames.get? (np_argmax preds) = some nm) :
    classify_image env img_path model cnames "none"
      = some (nm, preds.getD (np_argmax preds) 0 * 100)
    ∧ np_argmax preds < preds.length
    ∧ ∀ j < preds.length, preds.getD j 0 ≤ preds.getD (np_argmax preds) 0 := by
  refine ⟨?_, np_argmax_lt preds hne, np_argmax_max preds⟩
  have hpre : preprocess_image env pil "none" = some pil := by
    simp [preprocess_image]
  simp only [classify_image, hshape, hload, hpre, hpreds]
  cases hp : preds with
  | nil => exact absurd hp hne
  | cons p ps =>
    simp only [classify_core, ← hp, hnm]

/-- Witness for C8 on a concrete toy model whose forward pass puts the
maximum probability on index 1. -/
theorem classify_image_witness :
    classify_image ⟨fun _ _ => some ⟨1, 1, fun _ _ => (0, 0, 0)⟩, id⟩ "scan.png"
        ⟨KShape.single [1, 224, 224, 3], fun _ => [1 / 10, 7 / 10, 1 / 10, 1 / 10]⟩
        class_names "none"
      = some ("Meningioma Tumor",
          ([1 / 10, 7 / 10, 1 / 10, 1 / 10] : List ℚ).getD
            (np_argmax [1 / 10, 7 / 10, 1 / 10, 1 / 10]) 0 * 100)
    ∧ np_argmax [(1 : ℚ) / 10, 7 / 10, 1 / 10, 1 / 10]
        < ([(1 : ℚ) / 10, 7 / 10, 1 / 10, 1 / 10] : List ℚ).length
    ∧ ∀ j < ([(1 : ℚ) / 10, 7 / 10, 1 / 10, 1 / 10] : List ℚ).length,
        ([(1 : ℚ) / 10, 7 / 10, 1 / 10, 1 / 10] : List ℚ).getD j 0
          ≤ ([(1 : ℚ) / 10, 7 / 10, 1 / 10, 1 / 10] : List ℚ).getD
              (np_argmax [1 / 10, 7 / 10, 1 / 10, 1 / 10]) 0 :=
  classify_image_spec ⟨fun _ _ => some ⟨1, 1, fun _ _ => (0, 0, 0)⟩, id⟩
    ⟨KShape.single [1, 224, 224, 3], fun _ => [1 / 10, 7 / 10, 1 / 10, 1 / 10]⟩
    class_names "scan.png" 224 224 3 ⟨1, 1, fun _ _ => (0, 0, 0)⟩
    [1 / 10, 7 / 10, 1 / 10, 1 / 10] "Meningioma Tumor"
    rfl rfl rfl (List.cons_ne_nil _ _)
    (by rw [show np_argmax [(1 : ℚ) / 10, 7 / 10, 1 / 10, 1 / 10] = 1 from by
          norm_num [np_argmax]]; rfl)

/-! Segmentation embedding (`src/utils/segmentation.py`). -/

/-- A single-channel (grayscale) image or 2-D probability map. -/
structure GImage where
  h : ℕ
  w : ℕ
  px : ℕ → ℕ → ℚ

/-- A 3-channel (BGR) color image. -/
structure CImage where
  h : ℕ
  w : ℕ
  px : ℕ → ℕ → ℚ × ℚ × ℚ

/-- Segmentation-side environment: `cv2.imread(·, IMREAD_GRAYSCALE)`
(returning nothing for an unreadable path), the `cv2.resize` resampling
kernel (the default bilinear interpolation — the same one for both resize
calls in the source, which is what preserves per-pixel alignment), and the
`cv2.COLORMAP_JET` lookup table on uint8 values. -/
structure SegEnv where
  imread : String → Option GImage
  interp : (ℕ → ℕ → ℚ) → ℕ × ℕ → ℕ × ℕ → ℕ → ℕ → ℚ
  jet : ℕ → ℚ × ℚ × ℚ

/-- `cv2.resize(m, dsize)` with `dsize = (width, height)`: the output has
exactly the requested size (cv2's contract) with content resampled by the
environment's interpolation kernel. -/
def cv_resize (env : SegEnv) (m : GImage) (dsize : ℕ × ℕ) : GImage :=
  ⟨dsize.2, dsize.1, env.interp m.px (m.h, m.w) (dsize.2, dsize.1)⟩

/-- `cv2.cvtColor(img, COLOR_GRAY2BGR)`: replicate the gray value into all
three channels. -/
def cvtColor_gray2bgr (m : GImage) : CImage :=
  ⟨m.h, m.w, fun i j => (m.px i j, m.px i j, m.px i j)⟩

/-- The `astype(np.uint8)` cast: truncate and wrap into [0, 256). -/
def toU8 (q : ℚ) : ℕ :=
  (⌊q⌋).toNat % 256

/-- `cv2.applyColorMap(·, COLORMAP_JET)`: per-pixel lookup of the uint8
value in the jet table. -/
def applyColorMap_jet (env : SegEnv) (m : GImage) : CImage :=
  ⟨m.h, m.w, fun i j => env.jet (toU8 (m.px i j))⟩

/-- Saturation to the valid uint8 pixel range, over exact rationals. -/
def satc (q : ℚ) : ℚ :=
  max 0 (min 255 q)

/-- `cv2.addWeighted(a, wa, b, wb, g)`: per-pixel, per-channel weighted sum
plus `g`, saturated to the valid range; the output takes the first
source's dimensions. -/
def addWeighted (a : CImage) (wa : ℚ) (b : CImage) (wb : ℚ) (g : ℚ) : CImage :=
  ⟨a.h, a.w, fun i j =>
    (satc ((a.px i j).1 * wa + (b.px i j).1 * wb + g),
     satc ((a.px i j).2.1 * wa + (b.px i j).2.1 * wb + g),
     satc ((a.px i j).2.2 * wa + (b.px i j).2.2 * wb + g))⟩

/-- `segment_image_heatmap` of `src/utils/segmentation.py`: read grayscale
(`None` → no overlay), 3-channel copy of the original, resize to
`target_size` and normalize to [0,1], forward pass, resize the probability
map back to the original resolution, jet colormap of the map scaled by
255, and alpha-composite over the original. -/
def segment_image_heatmap (env : SegEnv) (model : GImage → GImage)
    (image_path : String) (target_size : ℕ × ℕ) (alpha : ℚ) : Option CImage :=
  match env.imread image_path with
  | none => none
  | some img =>
    let original_img := cvtColor_gray2bgr img
    let img_resized := cv_resize env img target_size
    let img_norm : GImage := ⟨img_resized.h, img_resized.w, fun i j => img_resized.px i j / 255⟩
    let prediction := model img_norm
    let prediction_resized := cv_resize env prediction (img.w, img.h)
    let heatmap := applyColorMap_jet env
      ⟨prediction_resized.h, prediction_resized.w, fun i j => prediction_resized.px i j * 255⟩
    some (addWeighted original_img (1 - alpha) heatmap alpha 0)

/-- The heatmap pixel obtained for original image `img`: jet colormap of
the uint8-cast, 255-scaled probability map after it has been resized back
to the original resolution by the same interpolation kernel. -/
def heatPix (env : SegEnv) (model : GImage → GImage) (img : GImage)
    (target_size : ℕ × ℕ) (i j : ℕ) : ℚ × ℚ × ℚ :=
  env.jet (toU8 ((cv_resize env
    (model ⟨(cv_resize env img target_size).h, (cv_resize env img target_size).w,
      fun a b => (cv_resize env img target_size).px a b / 255⟩)
    (img.w, img.h)).px i j * 255))

/-- Claim C9: for a readable image and alpha in [0, 1], the overlay has
exactly the original image's spatial dimensions (the probability map is
resized back to `(img.w, img.h)` with the same interpolation kernel used
for the forward-pass resize), and each output pixel is
`original*(1-alpha) + heatmap*alpha`, clipped to the valid range,
channel-wise (the original's channels all carrying the gray value). -/
theorem segment_overlay_dims_and_blend (env : SegEnv) (model : GImage → GImage)
    (image_path : String) (target_size : ℕ × ℕ) (alpha : ℚ) (img : GImage)
    (himg : env.imread image_path = some img)
    (h0 : 0 ≤ alpha) (h1 : alpha ≤ 1) :
    ∃ ov, segment_image_heatmap env model image_path target_size alpha = some ov
      ∧ ov.h = img.h ∧ ov.w = img.w
      ∧ ∀ i j, ov.px i j =
          (satc (img.px i j * (1 - alpha) + (heatPix env model img target_size i j).1 * alpha),
           satc (img.px i j * (1 - alpha) + (heatPix env model img target_size i j).2.1 * alpha),
           satc (img.px i j * (1 - alpha) + (heatPix env model img target_size i j).2.2 * alpha)) := by
  refine ⟨_, by rw [segment_image_heatmap, himg], rfl, rfl, ?_⟩
  intro i j
  simp only [addWeighted, cvtColor_gray2bgr, applyColorMap_jet, heatPix, cv_resize]
  norm_num

/-- Witness for C9 on a concrete 2×3 image with a nearest-style kernel and
a constant jet table. -/
theorem segment_overlay_witness :
    ∃ ov, segment_image_heatmap
        ⟨fun _ => some ⟨2, 3, fun i j => (i : ℚ) + j⟩,
         fun px _ _ => px, fun n => ((n : ℚ), 0, 255 - (n : ℚ))⟩
        (fun m => m) "scan.png" (128, 128) (1 / 2) = some ov
      ∧ ov.h = (⟨2, 3, fun i j => (i : ℚ) + j⟩ : GImage).h
      ∧ ov.w = (⟨2, 3, fun i j => (i : ℚ) + j⟩ : GImage).w
      ∧ ∀ i j, ov.px i j =
          (satc ((⟨2, 3, fun i j => (i : ℚ) + j⟩ : GImage).px i j * (1 - 1 / 2)
              + (heatPix ⟨fun _ => some ⟨2, 3, fun i j => (i : ℚ) + j⟩,
                  fun px _ _ => px, fun n => ((n : ℚ), 0, 255 - (n : ℚ))⟩
                  (fun m => m) ⟨2, 3, fun i j => (i : ℚ) + j⟩ (128, 128) i j).1 * (1 / 2)),
           satc ((⟨2, 3, fun i j => (i : ℚ) + j⟩ : GImage).px i j * (1 - 1 / 2)
              + (heatPix ⟨fun _ => some ⟨2, 3, fun i j => (i : ℚ) + j⟩,
                  fun px _ _ => px, fun n => ((n : ℚ), 0, 255 - (n : ℚ))⟩
                  (fun m => m) ⟨2, 3, fun i j => (i : ℚ) + j⟩ (128, 128) i j).2.1 * (1 / 2)),
           satc ((⟨2, 3, fun i j => (i : ℚ) + j⟩ : GImage).px i j * (1 - 1 / 2)
              + (heatPix ⟨fun _ => some ⟨2, 3, fun i j => (i : ℚ) + j⟩,
                  fun px _ _ => px, fun n => ((n : ℚ), 0, 255 - (n : ℚ))⟩
                  (fun m => m) ⟨2, 3, fun i j => (i : ℚ) + j⟩ (128, 128) i j).2.2 * (1 / 2))) :=
  segment_overlay_dims_and_blend
    ⟨fun _ => some ⟨2, 3, fun i j => (i : ℚ) + j⟩,
     fun px _ _ => px, fun n => ((n : ℚ), 0, 255 - (n : ℚ))⟩
    (fun m => m) "scan.png" (128, 128) (1 / 2) ⟨2, 3, fun i j => (i : ℚ) + j⟩
    rfl (by norm_num) (by norm_num)

/-! The presentation shell's orchestration (`src/app.py` lines 798-874). -/

/-- What one upload interaction produces: the classification result, the
optional overlay shown in the second column, and the report story built on
the download action. -/
structure PipelineResult where
  pred_class : String
  confidence : ℚ
  overlay : Option CImage
  report : List Flowable

/-- The shell's sequence for one upload: classification (a failure halts
the request), segmentation with its result degraded to an absent overlay,
`overlay_path = "temp_overlay.png"` only when an overlay exists, and the
report built from the classification result and that path. -/
def run_pipeline (cenv : ClsEnv) (senv : SegEnv) (renv : ReportEnv)
    (cmodel : KerasClassifier) (smodel : GImage → GImage) (img_path : String) :
    Option PipelineResult :=
  match classify_image cenv img_path cmodel class_names "none" with
  | none => none
  | some (pred_class, confidence) =>
    match segment_image_heatmap senv smodel img_path (128, 128) (1 / 2) with
    | some overlay =>
      some ⟨pred_class, confidence, some overlay,
        generate_pdf_report renv (some img_path) (some "temp_overlay.png")
          pred_class (some confidence)⟩
    | none =>
      some ⟨pred_class, confidence, none,
        generate_pdf_report renv (some img_path) none pred_class (some confidence)⟩

/-- Claim C3: an unreadable image makes `segment_image_heatmap` return the
absent-overlay value (`None`) instead of raising, and the pipeline still
produces the classification result and the report. -/
theorem segmentation_unreadable_degrades (cenv : ClsEnv) (senv : SegEnv)
    (renv : ReportEnv) (cmodel : KerasClassifier) (smodel : GImage → GImage)
    (img_path : String) (pred_class : String) (confidence : ℚ)
    (himg : senv.imread img_path = none)
    (hcls : classify_image cenv img_path cmodel class_names "none"
      = some (pred_class, confidence)) :
    segment_image_heatmap senv smodel img_path (128, 128) (1 / 2) = none
    ∧ run_pipeline cenv senv renv cmodel smodel img_path
        = some ⟨pred_class, confidence, none,
            generate_pdf_report renv (some img_path) none pred_class (some confidence)⟩
    ∧ ["Classification Result", pred_class]
        ∈ tableRows (generate_pdf_report renv (some img_path) none
            pred_class (some confidence)) := by
  have hseg : segment_image_heatmap senv smodel img_path (128, 128) (1 / 2) = none := by
    rw [segment_image_heatmap, himg]
  refine ⟨hseg, ?_, ?_⟩
  · simp only [run_pipeline, hcls, hseg]
  · rw [tableRows_report]
    simp [resultRows, reportInfoRows]

/-- Witness for C3: a classifier that succeeds on a path the segmentation
side cannot read. -/
theorem segmentation_unreadable_witness :
    segment_image_heatmap ⟨fun _ => none, fun px _ _ => px, fun n => ((n : ℚ), 0, 0)⟩
        (fun m => m) "scan.png" (128, 128) (1 / 2) = none
    ∧ run_pipeline ⟨fun _ _ => some ⟨1, 1, fun _ _ => (0, 0, 0)⟩, id⟩
        ⟨fun _ => none, fun px _ _ => px, fun n => ((n : ℚ), 0, 0)⟩
        ⟨fun _ => false, "", "", ""⟩
        ⟨KShape.single [1, 224, 224, 3], fun _ => [1]⟩ (fun m => m) "scan.png"
        = some ⟨"Glioma Tumor", 1 * 100, none,
            generate_pdf_report ⟨fun _ => false, "", "", ""⟩ (some "scan.png") none
              "Glioma Tumor" (some (1 * 100))⟩
    ∧ ["Classification Result", "Glioma Tumor"]
        ∈ tableRows (generate_pdf_report ⟨fun _ => false, "", "", ""⟩ (some "scan.png")
            none "Glioma Tumor" (some (1 * 100))) :=
  segmentation_unreadable_degrades ⟨fun _ _ => some ⟨1, 1, fun _ _ => (0, 0, 0)⟩, id⟩
    ⟨fun _ => none, fun px _ _ => px, fun n => ((n : ℚ), 0, 0)⟩
    ⟨fun _ => false, "", "", ""⟩
    ⟨KShape.single [1, 224, 224, 3], fun _ => [1]⟩ (fun m => m) "scan.png"
    "Glioma Tumor" (1 * 100) rfl rfl

end TumorX

